import Mathlib

/-!
Shallow embedding of the eventrely backend (IAM + reminder-management
bounded contexts).  Pure Python functions become Lean functions; methods
that mutate an aggregate in place become functions returning the updated
aggregate (or the aggregate together with the raised error, when a raise
can leave a partial mutation behind); `raise` becomes `Except`/an error
component.  The current UTC clock is passed explicitly as an integer
instant.  Strings are handled through their character lists so that every
definition evaluates by kernel reduction.
-/

namespace Eventrely

/-- Python exception kinds that the embedded code can raise.  Every typed
error of the repository (ValidationError / ConflictError / AuthError /
DomainError / InvalidTokenError in the spec's taxonomy) is raised as a
`ValueError` in the source; `KeyError` is what a failed dict lookup such
as `payload["sub"]` raises; `IntegrityError` is what a commit that
violates a database UNIQUE constraint raises out of SQLAlchemy.  Only
`ValueError` is caught by the controllers and the token dependencies —
the other two fall through to the generic 500 handler. -/
inductive PyErr where
  | valueError (msg : String)
  | keyError (key : String)
  | integrityError (msg : String)
deriving DecidableEq, Repr

/-! ### Python string primitives, modelled on character lists -/

/-- `str.lower()`. -/
def pyLower (s : String) : String := ⟨s.data.map Char.toLower⟩

/-- `str.strip()`: drop whitespace from both ends. -/
def pyStrip (s : String) : String :=
  ⟨((s.data.dropWhile Char.isWhitespace).reverse.dropWhile Char.isWhitespace).reverse⟩

/-- `len(s)`. -/
def pyLen (s : String) : Nat := s.data.length

/-- `c in s` for a single character. -/
def pyContains (s : String) (c : Char) : Bool := s.data.any (fun a => a == c)

/-- Digits-to-number accumulator for `int(s)`. -/
def digitsToNat (l : List Char) : Nat := l.foldl (fun acc c => acc * 10 + (c.toNat - 48)) 0

/-- Python `int(s)`: strip whitespace, optional sign, then base-10 digits;
raises `ValueError` (here: `none`) on anything else. -/
def pyInt (s : String) : Option Int :=
  let t := ((s.data.dropWhile Char.isWhitespace).reverse.dropWhile Char.isWhitespace).reverse
  match t with
  | '-' :: rest =>
      if rest ≠ [] ∧ rest.all Char.isDigit then some (-(digitsToNat rest : Int)) else none
  | '+' :: rest =>
      if rest ≠ [] ∧ rest.all Char.isDigit then some (digitsToNat rest : Int) else none
  | _ =>
      if t ≠ [] ∧ t.all Char.isDigit then some (digitsToNat t : Int) else none

/-- Decimal rendering of a naturalnumber, `str(n)`; fuel-structured so it
reduces in the kernel. -/
def natStrGo : Nat → Nat → List Char → List Char
  | 0, _, acc => acc
  | fuel + 1, n, acc =>
      if n < 10 then Char.ofNat (48 + n) :: acc
      else natStrGo fuel (n / 10) (Char.ofNat (48 + n % 10) :: acc)

/-- `str(n)` for a natural number id. -/
def natStr (n : Nat) : String := ⟨natStrGo (n + 1) n []⟩

/-! ### bcrypt
Modelled from the spec: the bcrypt library (`bcrypt.gensalt`,
`bcrypt.hashpw`, `bcrypt.checkpw`) is not part of this repository.  The
spec describes it as a one-way salted hash whose verify round-trips
(§4.1, §8), so the hash is idealised as an injective pairing of the salt
with the password; `checkpw` re-extracts the salt embedded in the hash
and recomputes, exactly as the real primitive does.  The random salt is
abstracted as a seed-indexed colon-free string. -/

/-- `bcrypt.gensalt()`: the salt for randomness seed `seed`; never
contains the `:` separator used by the hash encoding. -/
def bcrypt_gensalt (seed : Nat) : List Char := List.replicate seed 's'

/-- `bcrypt.hashpw(pw, salt)`: salt joined to the password. -/
def bcrypt_hashpw (pw : String) (salt : List Char) : String := ⟨salt ++ ':' :: pw.data⟩

/-- `bcrypt.checkpw(pw, hash)`: extract the salt stored in the hash,
recompute, compare. -/
def bcrypt_checkpw (pw hash : String) : Bool :=
  let salt := hash.data.takeWhile (fun c => c != ':')
  bcrypt_hashpw pw salt == hash

/-! ### IAM: the User aggregate (src/iam/domain/model/aggregates/User.py) -/

/-- `UserRoleEnum.GENERAL.value`, the column default of `User.role`. -/
def generalRole : String := "general_user"

/-- `UserRoleEnum.ADMIN.value`. -/
def adminRole : String := "admin_user"

structure User where
  id : Nat
  username : String
  email : String
  hashed_password : String
  full_name : Option String
  role : String
  is_active : Bool
  created_at : Int
  updated_at : Int
deriving DecidableEq, Repr

/-- `User.hash_password` (static): length guard, then bcrypt with a fresh
salt; the salt's randomness source is the explicit `seed`. -/
def User.hash_password (seed : Nat) (plain_password : String) : Except PyErr String :=
  if pyLen plain_password = 0 ∨ pyLen plain_password < 8 then
    .error (.valueError "Password must be at least 8 characters")
  else
    .ok (bcrypt_hashpw plain_password (bcrypt_gensalt seed))

/-- `User.verify_password`. -/
def User.verify_password (u : User) (plain_password : String) : Bool :=
  bcrypt_checkpw plain_password u.hashed_password

/-- `User.can_authenticate`. -/
def User.can_authenticate (u : User) : Bool := u.is_active

/-- `User.update_profile(full_name?, email?)`.  The source mutates
`full_name` first and only then validates `email`, so on the invalid
email path the returned aggregate keeps the new `full_name`; the second
component is the raised error, if any. -/
def User.update_profile (now : Int) (u : User)
    (full_name : Option String) (email : Option String) : User × Option PyErr :=
  let u1 := match full_name with
    | some fn => { u with full_name := some fn }
    | none => u
  match email with
  | some e =>
      if pyLen e = 0 ∨ ¬ pyContains e '@' then
        (u1, some (.valueError "Invalid email format"))
      else
        ({ u1 with email := e, updated_at := now }, none)
  | none => ({ u1 with updated_at := now }, none)

/-! ### IAM: token service (src/iam/application/internal/tokenservice/JWTService.py)
The PyJWT encode/sign/decode pipeline is external; a token is embedded as
the outcome of `jwt.decode` on it: `.ok payload` is a validly signed,
unexpired, well-formed token carrying `payload`, `.error reason` is a
token `jwt.decode` rejects (bad signature, malformed payload, or expired)
with exception text `reason`.  Claims other than the subject are carried
verbatim; `exp`/`iat` are folded into the decode outcome. -/

structure JwtPayload where
  sub : Option String
  username : Option String
  email : Option String
  ty : Option String
deriving DecidableEq, Repr

abbrev Token := Except String JwtPayload

/-- `JWTService.create_access_token`. -/
def create_access_token (user_id : Nat) (username email : String) : Token :=
  .ok { sub := some (natStr user_id), username := some username,
        email := some email, ty := some "access" }

/-- `JWTService.create_refresh_token`. -/
def create_refresh_token (user_id : Nat) : Token :=
  .ok { sub := some (natStr user_id), username := none, email := none,
        ty := some "refresh" }

/-- `JWTService.verify_token`: re-raise the decode failure as
`ValueError("Invalid token: ...")`. -/
def verify_token (token : Token) : Except PyErr JwtPayload :=
  match token with
  | .ok payload => .ok payload
  | .error reason => .error (.valueError ("Invalid token: " ++ reason))

/-- `JWTService.get_user_id_from_token`: verify, then `int(payload["sub"])`.
A missing `"sub"` key raises `KeyError`; a non-integer subject string
makes `int` raise `ValueError`. -/
def get_user_id_from_token (token : Token) : Except PyErr Int :=
  match verify_token token with
  | .error e => .error e
  | .ok payload =>
      match payload.sub with
      | none => .error (.keyError "sub")
      | some s =>
          match pyInt s with
          | some n => .ok n
          | none => .error (.valueError ("invalid literal for int() with base 10: " ++ s))

/-! ### IAM: repository and command service
(src/iam/infrastructure/persistence/repositories/UserRepositoryImpl.py,
src/iam/application/internal/commandservice/CommandServiceImpl.py)
The users table is a list of persisted rows; SQL `=` on PostgreSQL text
columns is exact string equality.  `save` on a new aggregate assigns the
autoincrement id and applies the `role` column default, since
`sign_up` never passes `role` to the `User` constructor; its commit
enforces the `unique=True` constraints on `users.username` and
`users.email` declared in User.py and created by init_db's
`create_all`, raising `IntegrityError` on violation. -/

structure UserRepo where
  users : List User
  next_id : Nat
deriving Repr

/-- `UserRepositoryImpl.exists_by_username`. -/
def exists_by_username (repo : UserRepo) (username : String) : Bool :=
  repo.users.any (fun u => u.username == username)

/-- `UserRepositoryImpl.exists_by_email`. -/
def exists_by_email (repo : UserRepo) (email : String) : Bool :=
  repo.users.any (fun u => u.email == email)

/-- `UserRepositoryImpl.find_by_username_or_email`. -/
def find_by_username_or_email (repo : UserRepo) (username_or_email : String) : Option User :=
  repo.users.find? (fun u => u.username == username_or_email || u.email == username_or_email)

/-- `UserRepositoryImpl.save` on a new aggregate: the INSERT commits only
if the UNIQUE constraints on `users.username` and `users.email` hold
against the stored rows; a duplicate makes the commit raise
`IntegrityError` and nothing is persisted. -/
def save_new_user (repo : UserRepo) (user : User) : Except PyErr UserRepo :=
  if repo.users.any (fun u => u.username == user.username || u.email == user.email) then
    .error (.integrityError "duplicate key value violates unique constraint")
  else
    .ok { users := repo.users ++ [user], next_id := repo.next_id + 1 }

structure SignUpCommand where
  username : String
  email : String
  password : String
  role : String
  full_name : Option String
deriving Repr

structure SignInCommand where
  username_or_email : String
  password : String
deriving Repr

structure AuthenticationResponse where
  user : User
  access_token : Token
  refresh_token : Token
deriving Repr

/-- `CommandServiceImpl.sign_up` (IAM).  Checks run in source order:
username uniqueness, email uniqueness, `'@'` in email, username length;
then the `User` aggregate is constructed with lowercased-and-stripped
username/email and the hashed password (`User.hash_password` can raise
out of the constructor call) and persisted through `save_new_user`,
whose commit can still raise `IntegrityError` on the UNIQUE
constraints.  The source never passes `command.role`, so the persisted
row carries the column default `general_user` (the DB-assigned id and
defaults are modelled at construction, so the saved user the response
carries equals the constructed one).  Returns the repository after the
insert together with the response. -/
def sign_up (repo : UserRepo) (seed : Nat) (now : Int) (command : SignUpCommand) :
    Except PyErr (UserRepo × AuthenticationResponse) :=
  if exists_by_username repo command.username then
    .error (.valueError ("Username '" ++ command.username ++ "' is already taken"))
  else if exists_by_email repo command.email then
    .error (.valueError ("Email '" ++ command.email ++ "' is already registered"))
  else if ¬ pyContains command.email '@' then
    .error (.valueError "Invalid email format")
  else if pyLen command.username < 3 ∨ pyLen command.username > 50 then
    .error (.valueError "Username must be between 3 and 50 characters")
  else
    match User.hash_password seed command.password with
    | .error e => .error e
    | .ok hpw =>
        let user : User :=
          { id := repo.next_id,
            username := pyStrip (pyLower command.username),
            email := pyStrip (pyLower command.email),
            hashed_password := hpw,
            full_name := command.full_name,
            role := generalRole,
            is_active := true,
            created_at := now,
            updated_at := now }
        match save_new_user repo user with
        | .error e => .error e
        | .ok repo2 =>
            .ok (repo2,
              { user := user,
                access_token := create_access_token user.id user.username user.email,
                refresh_token := create_refresh_token user.id })

/-- `CommandServiceImpl.sign_in` (IAM): normalized lookup, then password
check, then active check; the first two failures share one message. -/
def sign_in (repo : UserRepo) (command : SignInCommand) : Except PyErr AuthenticationResponse :=
  match find_by_username_or_email repo (pyStrip (pyLower command.username_or_email)) with
  | none => .error (.valueError "Invalid credentials")
  | some user =>
      if ¬ user.verify_password command.password then
        .error (.valueError "Invalid credentials")
      else if ¬ user.can_authenticate then
        .error (.valueError "Account is deactivated")
      else
        .ok { user := user,
              access_token := create_access_token user.id user.username user.email,
              refresh_token := create_refresh_token user.id }

/-! ### Reminder management: the Event aggregate
(src/remindermanagement/domain/model/aggregates/Event.py) -/

inductive ReminderStatus where
  | pending
  | completed
  | cancelled
  | expired
deriving DecidableEq, Repr

/-- The string value of a `ReminderStatus` member. -/
def statusValue : ReminderStatus → String
  | .pending => "pending"
  | .completed => "completed"
  | .cancelled => "cancelled"
  | .expired => "expired"

/-- A Python datetime: the instant read as a UTC clock value, plus
whether `tzinfo` is set.  `replace(tzinfo=utc)` on a naive datetime keeps
the clock fields, i.e. keeps `val`. -/
structure PyDateTime where
  val : Int
  aware : Bool
deriving DecidableEq, Repr

/-- `ensure_utc` / the `tzinfo is None` coercion inside `reschedule`. -/
def ensure_utc (dt : PyDateTime) : PyDateTime :=
  if dt.aware then dt else { dt with aware := true }

structure Event where
  id : Nat
  user_id : String
  title : String
  event_date : PyDateTime
  status : ReminderStatus
  created_at : Int
  updated_at : Int
deriving DecidableEq, Repr

/-- `Event.reschedule(new_date)`: coerce to aware, reject past dates,
otherwise replace the date and bump `updated_at`.  No status guard. -/
def Event.reschedule (now : Int) (e : Event) (new_date : PyDateTime) : Except PyErr Event :=
  if (ensure_utc new_date).val < now then
    .error (.valueError "Cannot schedule event in the past")
  else
    .ok { e with event_date := ensure_utc new_date, updated_at := now }

/-- `Event.update_details(title?)`: a provided title must not strip to
empty; `updated_at` is bumped on every non-raising path. -/
def Event.update_details (now : Int) (e : Event) (title : Option String) : Except PyErr Event :=
  match title with
  | some t =>
      if pyStrip t == "" then
        .error (.valueError "Title cannot be empty")
      else
        .ok { e with title := t, updated_at := now }
  | none => .ok { e with updated_at := now }

/-- `Event.mark_completed`: only from `pending`. -/
def Event.mark_completed (now : Int) (e : Event) : Except PyErr Event :=
  if e.status ≠ ReminderStatus.pending then
    .error (.valueError ("Cannot complete event with status: " ++ statusValue e.status))
  else
    .ok { e with status := .completed, updated_at := now }

/-- `Event.cancel`: only from `pending`. -/
def Event.cancel (now : Int) (e : Event) : Except PyErr Event :=
  if e.status ≠ ReminderStatus.pending then
    .error (.valueError "Cannot cancel a completed event")
  else
    .ok { e with status := .cancelled, updated_at := now }

/-! ### Reminder management: repository and command service
(src/remindermanagement/.../EventRepositoryImpl.py, CommandServiceImpl.py) -/

structure EventRepo where
  events : List Event
deriving Repr

/-- `EventRepositoryImpl.find_by_id`. -/
def find_event_by_id (repo : EventRepo) (event_id : Nat) : Option Event :=
  repo.events.find? (fun e => e.id == event_id)

/-- `EventRepositoryImpl.save` on an already persisted aggregate: the row
with the same primary key is replaced. -/
def save_event (repo : EventRepo) (e : Event) : EventRepo :=
  { events := repo.events.map (fun x => if x.id == e.id then e else x) }

structure UpdateEventCommand where
  event_id : Nat
  title : Option String
  event_date : Option PyDateTime
deriving Repr

/-- `CommandServiceImpl.update_event` (reminders).  `if command.title:`
is Python truthiness, so `None` and the empty string are both skipped
silently; a datetime is always truthy.  A raise from the aggregate
propagates before `save` runs. -/
def update_event (repo : EventRepo) (now : Int) (command : UpdateEventCommand) :
    Except PyErr (EventRepo × Event) :=
  match find_event_by_id repo command.event_id with
  | none => .error (.valueError ("Event not found: " ++ natStr command.event_id))
  | some event =>
      let step1 : Except PyErr Event :=
        match command.title with
        | some t => if t == "" then .ok event else event.update_details now (some t)
        | none => .ok event
      match step1 with
      | .error e => .error e
      | .ok ev1 =>
          match command.event_date with
          | some d =>
              (match ev1.reschedule now (ensure_utc d) with
               | .error e => .error e
               | .ok ev2 => .ok (save_event repo ev2, ev2))
          | none => .ok (save_event repo ev1, ev1)

/-! ### Operation sequences over one reminder (for reachability of statuses) -/

/-- One aggregate command applied to a reminder, with the clock instant
and arguments it was called with. -/
inductive EventOp where
  | reschedule (now : Int) (new_date : PyDateTime)
  | updateDetails (now : Int) (title : Option String)
  | markCompleted (now : Int)
  | cancel (now : Int)
deriving Repr

/-- Run one command; a raising command leaves the aggregate unchanged
(every mutation in those methods happens after the raise point). -/
def runOp (e : Event) : EventOp → Event
  | .reschedule now d =>
      match e.reschedule now d with
      | .ok e2 => e2
      | .error _ => e
  | .updateDetails now t =>
      match e.update_details now t with
      | .ok e2 => e2
      | .error _ => e
  | .markCompleted now =>
      match e.mark_completed now with
      | .ok e2 => e2
      | .error _ => e
  | .cancel now =>
      match e.cancel now with
      | .ok e2 => e2
      | .error _ => e

/-- Run a finite sequence of aggregate commands. -/
def runOps (e : Event) (ops : List EventOp) : Event := ops.foldl runOp e

/-! ### Helper lemmas -/

lemma takeWhile_append_stop (l₁ l₂ : List Char) (c : Char) (p : Char → Bool)
    (h : ∀ a ∈ l₁, p a = true) (hc : p c = false) :
    (l₁ ++ c :: l₂).takeWhile p = l₁ := by
  induction l₁ with
  | nil => simp [List.takeWhile, hc]
  | cons a t ih =>
      have ha : p a = true := h a (by simp)
      simp only [List.cons_append, List.takeWhile, ha, List.cons.injEq, true_and]
      exact ih (fun b hb => h b (by simp [hb]))

lemma gensalt_no_colon (seed : Nat) : ∀ a ∈ bcrypt_gensalt seed, (a != ':') = true := by
  intro a ha
  rw [bcrypt_gensalt, List.mem_replicate] at ha
  rw [ha.2]
  decide

/-- `checkpw` against a hash produced by `hashpw` accepts exactly the
hashed password. -/
lemma bcrypt_checkpw_hashpw (pw other : String) (seed : Nat) :
    bcrypt_checkpw other (bcrypt_hashpw pw (bcrypt_gensalt seed)) = (other == pw) := by
  unfold bcrypt_checkpw bcrypt_hashpw
  have hdata : (String.mk (bcrypt_gensalt seed ++ ':' :: pw.data)).data
      = bcrypt_gensalt seed ++ ':' :: pw.data := rfl
  rw [hdata, takeWhile_append_stop _ _ _ _ (gensalt_no_colon seed) (by decide)]
  by_cases h : other = pw
  · subst h
    simp
  · have hne : String.mk (bcrypt_gensalt seed ++ ':' :: other.data)
        ≠ String.mk (bcrypt_gensalt seed ++ ':' :: pw.data) := by
      intro heq
      apply h
      have hlist : bcrypt_gensalt seed ++ ':' :: other.data
          = bcrypt_gensalt seed ++ ':' :: pw.data := congrArg String.data heq
      have := List.append_cancel_left hlist
      have hdd : other.data = pw.data := by
        injection this
      cases other
      cases pw
      exact congrArg String.mk hdd
    have e1 : (String.mk (bcrypt_gensalt seed ++ ':' :: other.data)
        == String.mk (bcrypt_gensalt seed ++ ':' :: pw.data)) = false := by
      simpa using hne
    have e2 : (other == pw) = false := by simpa using h
    rw [e1, e2]

lemma mark_completed_ok (now : Int) (e e2 : Event)
    (h : e.mark_completed now = .ok e2) :
    e.status = .pending ∧ e2 = { e with status := .completed, updated_at := now } := by
  unfold Event.mark_completed at h
  split at h
  · exact absurd h (by simp)
  · rename_i hp
    refine ⟨by simpa using hp, ?_⟩
    injection h with h
    exact h.symm

lemma cancel_ok (now : Int) (e e2 : Event)
    (h : e.cancel now = .ok e2) :
    e.status = .pending ∧ e2 = { e with status := .cancelled, updated_at := now } := by
  unfold Event.cancel at h
  split at h
  · exact absurd h (by simp)
  · rename_i hp
    refine ⟨by simpa using hp, ?_⟩
    injection h with h
    exact h.symm

lemma reschedule_ok_status (now : Int) (e e2 : Event) (d : PyDateTime)
    (h : e.reschedule now d = .ok e2) : e2.status = e.status := by
  unfold Event.reschedule at h
  split at h
  · exact absurd h (by simp)
  · injection h with h
    rw [← h]

lemma update_details_ok_status (now : Int) (e e2 : Event) (t : Option String)
    (h : e.update_details now t = .ok e2) : e2.status = e.status := by
  unfold Event.update_details at h
  match t with
  | some s =>
      simp only at h
      split at h
      · exact absurd h (by simp)
      · injection h with h
        rw [← h]
  | none =>
      simp only at h
      injection h with h
      rw [← h]

lemma save_new_user_ok (repo : UserRepo) (user : User) (repo2 : UserRepo)
    (h : save_new_user repo user = .ok repo2) :
    repo2.users = repo.users ++ [user] := by
  unfold save_new_user at h
  split at h
  · exact absurd h (by simp)
  · injection h with h
    rw [← h]

lemma runOp_preserves (e : Event) (op : EventOp)
    (h : e.status = .pending ∨ e.status = .completed ∨ e.status = .cancelled) :
    (runOp e op).status = .pending ∨ (runOp e op).status = .completed ∨
      (runOp e op).status = .cancelled := by
  cases op with
  | reschedule now d =>
      cases hr : e.reschedule now d with
      | ok e2 =>
          simp only [runOp, hr]
          rw [reschedule_ok_status now e e2 d hr]; exact h
      | error err => simpa only [runOp, hr] using h
  | updateDetails now t =>
      cases hr : e.update_details now t with
      | ok e2 =>
          simp only [runOp, hr]
          rw [update_details_ok_status now e e2 t hr]; exact h
      | error err => simpa only [runOp, hr] using h
  | markCompleted now =>
      cases hr : e.mark_completed now with
      | ok e2 =>
          right; left
          simp only [runOp, hr]
          rw [(mark_completed_ok now e e2 hr).2]
      | error err => simpa only [runOp, hr] using h
  | cancel now =>
      cases hr : e.cancel now with
      | ok e2 =>
          right; right
          simp only [runOp, hr]
          rw [(cancel_ok now e e2 hr).2]
      | error err => simpa only [runOp, hr] using h

lemma runOps_inv (ops : List EventOp) : ∀ e : Event,
    (e.status = .pending ∨ e.status = .completed ∨ e.status = .cancelled) →
    ((runOps e ops).status = .pending ∨ (runOps e ops).status = .completed ∨
      (runOps e ops).status = .cancelled) := by
  induction ops with
  | nil => intro e h; exact h
  | cons op rest ih =>
      intro e h
      simpa [runOps, List.foldl] using ih (runOp e op) (runOp_preserves e op h)

/-! ### Concrete fixtures used by witnesses and counterexamples -/

/-- A pending reminder. -/
def ePending : Event :=
  { id := 1, user_id := "u1", title := "Pay rent", event_date := { val := 500, aware := true },
    status := .pending, created_at := 0, updated_at := 0 }

/-- The same reminder after completion. -/
def eDone : Event := { ePending with status := .completed }

/-- An active stored user whose password is the modelled
`bcrypt_hashpw "password123"` under salt seed 2. -/
def uBob : User :=
  { id := 1, username := "bob", email := "bob@x.com",
    hashed_password := bcrypt_hashpw "password123" (bcrypt_gensalt 2),
    full_name := none, role := generalRole, is_active := true,
    created_at := 0, updated_at := 0 }

/-- A deactivated stored user with password `password456`, salt seed 3. -/
def uCarol : User :=
  { id := 2, username := "carol", email := "carol@x.com",
    hashed_password := bcrypt_hashpw "password456" (bcrypt_gensalt 3),
    full_name := none, role := generalRole, is_active := false,
    created_at := 0, updated_at := 0 }

/-- A stored user whose persisted (normalized) username is `alice`. -/
def uAlice : User :=
  { id := 1, username := "alice", email := "alice@x.com",
    hashed_password := bcrypt_hashpw "password123" (bcrypt_gensalt 2),
    full_name := none, role := generalRole, is_active := true,
    created_at := 0, updated_at := 0 }

/-! ### The claims -/

/-- A completed reminder after the (unguarded) reschedule to instant 200
at clock instant 100. -/
def eDoneMoved : Event :=
  { eDone with event_date := { val := 200, aware := true }, updated_at := 100 }

/-- Claim C2, counterexample: `reschedule` has no status guard, so a
completed reminder is rescheduled successfully to a future date — the
call does not fail and `event_date` changes. -/
theorem claim_C2_counterexample :
    eDone.status = .completed ∧
    Event.reschedule 100 eDone { val := 200, aware := true } = .ok eDoneMoved ∧
    eDoneMoved.event_date ≠ eDone.event_date :=
  ⟨rfl, rfl, by decide⟩

/-- Claim C2, amended: `reschedule` ignores the reminder's status
entirely.  For a reminder in any status, rescheduling fails (with the
validation `ValueError`, leaving the aggregate unchanged) exactly when
the coerced new date is before now; otherwise it succeeds, replaces
`event_date`, bumps `updated_at`, and never changes the status. -/
theorem claim_C2_reschedule_ignores_status (now : Int) (e : Event) (d : PyDateTime) :
    ((ensure_utc d).val < now →
      e.reschedule now d = .error (.valueError "Cannot schedule event in the past")) ∧
    (¬ (ensure_utc d).val < now →
      e.reschedule now d = .ok { e with event_date := ensure_utc d, updated_at := now }) ∧
    (∀ e2, e.reschedule now d = .ok e2 → e2.status = e.status) := by
  refine ⟨?_, ?_, fun e2 h => reschedule_ok_status now e e2 d h⟩
  · intro hlt
    unfold Event.reschedule
    rw [if_pos hlt]
  · intro hge
    unfold Event.reschedule
    rw [if_neg hge]

/-- The pending fixture after a successful reschedule to instant 200 at
clock instant 100. -/
def ePendingMoved : Event :=
  { ePending with
    event_date := ensure_utc { val := 200, aware := true },
    updated_at := 100 }

theorem claim_C2_reschedule_ignores_status_witness :
    ((ensure_utc { val := 50, aware := true }).val < 100 ∧
      ePending.reschedule 100 { val := 50, aware := true } =
        .error (.valueError "Cannot schedule event in the past")) ∧
    (¬ (ensure_utc { val := 200, aware := true }).val < 100 ∧
      ePending.reschedule 100 { val := 200, aware := true } = .ok ePendingMoved) :=
  ⟨⟨by decide,
    (claim_C2_reschedule_ignores_status 100 ePending { val := 50, aware := true }).1 (by decide)⟩,
   ⟨by decide,
    (claim_C2_reschedule_ignores_status 100 ePending { val := 200, aware := true }).2.1 (by decide)⟩⟩

/-- Claim C4: from `pending`, `mark_completed` succeeds into `completed`
and `cancel` succeeds into `cancelled`; from any other status both fail
with the domain `ValueError` and the aggregate is unchanged, so after a
successful completion (or cancellation) every further completion or
cancellation fails. -/
theorem claim_C4_status_machine (now later : Int) (e : Event) :
    (e.status = .pending →
      e.mark_completed now = .ok { e with status := .completed, updated_at := now } ∧
      e.cancel now = .ok { e with status := .cancelled, updated_at := now }) ∧
    (e.status ≠ .pending →
      e.mark_completed now =
        .error (.valueError ("Cannot complete event with status: " ++ statusValue e.status)) ∧
      e.cancel now = .error (.valueError "Cannot cancel a completed event")) ∧
    (∀ e2, e.mark_completed now = .ok e2 →
      (∃ m, e2.mark_completed later = .error (.valueError m)) ∧
      (∃ m, e2.cancel later = .error (.valueError m))) ∧
    (∀ e2, e.cancel now = .ok e2 →
      (∃ m, e2.mark_completed later = .error (.valueError m)) ∧
      (∃ m, e2.cancel later = .error (.valueError m))) := by
  refine ⟨?_, ?_, ?_, ?_⟩
  · intro hp
    constructor
    · unfold Event.mark_completed
      rw [if_neg (by simp [hp])]
    · unfold Event.cancel
      rw [if_neg (by simp [hp])]
  · intro hp
    constructor
    · unfold Event.mark_completed
      rw [if_pos hp]
    · unfold Event.cancel
      rw [if_pos hp]
  · intro e2 h
    have h2 := (mark_completed_ok now e e2 h).2
    have hs : e2.status = ReminderStatus.completed := by rw [h2]
    constructor
    · exact ⟨_, by unfold Event.mark_completed; rw [if_pos (by simp [hs])]⟩
    · exact ⟨_, by unfold Event.cancel; rw [if_pos (by simp [hs])]⟩
  · intro e2 h
    have h2 := (cancel_ok now e e2 h).2
    have hs : e2.status = ReminderStatus.cancelled := by rw [h2]
    constructor
    · exact ⟨_, by unfold Event.mark_completed; rw [if_pos (by simp [hs])]⟩
    · exact ⟨_, by unfold Event.cancel; rw [if_pos (by simp [hs])]⟩

theorem claim_C4_status_machine_witness :
    ePending.status = .pending ∧
    ePending.mark_completed 10 = .ok { ePending with status := .completed, updated_at := 10 } ∧
    ePending.cancel 10 = .ok { ePending with status := .cancelled, updated_at := 10 } ∧
    eDone.status ≠ .pending ∧
    eDone.mark_completed 10 =
      .error (.valueError ("Cannot complete event with status: " ++ statusValue eDone.status)) :=
  ⟨rfl,
   ((claim_C4_status_machine 10 20 ePending).1 rfl).1,
   ((claim_C4_status_machine 10 20 ePending).1 rfl).2,
   by decide,
   ((claim_C4_status_machine 10 20 eDone).2.1 (by decide)).1⟩

/-- Claim C8: for a password of length at least 8, `hash_password`
succeeds, verification of the same password against the produced hash
returns true, and verification of any other password returns false; for
a password shorter than 8 characters `hash_password` fails with the
length `ValueError` and no hash is produced. -/
theorem claim_C8_hash_verify_roundtrip (seed : Nat) (pw other : String) :
    (8 ≤ pyLen pw →
      User.hash_password seed pw = .ok (bcrypt_hashpw pw (bcrypt_gensalt seed)) ∧
      bcrypt_checkpw pw (bcrypt_hashpw pw (bcrypt_gensalt seed)) = true ∧
      (other ≠ pw → bcrypt_checkpw other (bcrypt_hashpw pw (bcrypt_gensalt seed)) = false)) ∧
    (pyLen pw < 8 →
      User.hash_password seed pw = .error (.valueError "Password must be at least 8 characters")) := by
  constructor
  · intro h8
    refine ⟨?_, ?_, ?_⟩
    · unfold User.hash_password
      rw [if_neg (by omega)]
    · rw [bcrypt_checkpw_hashpw]
      simp
    · intro hne
      rw [bcrypt_checkpw_hashpw]
      simpa using hne
  · intro h8
    unfold User.hash_password
    rw [if_pos (Or.inr h8)]

theorem claim_C8_hash_verify_roundtrip_witness :
    (8 ≤ pyLen "password123" ∧
      User.hash_password 2 "password123" =
        .ok (bcrypt_hashpw "password123" (bcrypt_gensalt 2)) ∧
      bcrypt_checkpw "password123" (bcrypt_hashpw "password123" (bcrypt_gensalt 2)) = true ∧
      bcrypt_checkpw "password124" (bcrypt_hashpw "password123" (bcrypt_gensalt 2)) = false) ∧
    (pyLen "short" < 8 ∧
      User.hash_password 9 "short" =
        .error (.valueError "Password must be at least 8 characters")) :=
  ⟨⟨by decide,
    ((claim_C8_hash_verify_roundtrip 2 "password123" "password124").1 (by decide)).1,
    ((claim_C8_hash_verify_roundtrip 2 "password123" "password124").1 (by decide)).2.1,
    ((claim_C8_hash_verify_roundtrip 2 "password123" "password124").1 (by decide)).2.2
      (by decide)⟩,
   ⟨by decide, (claim_C8_hash_verify_roundtrip 9 "short" "x").2 (by decide)⟩⟩

/-- Claim C9: starting from a pending reminder, no finite sequence of
aggregate commands (`reschedule`, `update_details`, `mark_completed`,
`cancel`) ever reaches status `expired`: every reachable status is one
of pending, completed, cancelled, and each of those three is reached. -/
theorem claim_C9_expired_unreachable (e : Event) (h : e.status = .pending) :
    (∀ ops : List EventOp,
      (runOps e ops).status = .pending ∨ (runOps e ops).status = .completed ∨
        (runOps e ops).status = .cancelled) ∧
    (∀ ops : List EventOp, (runOps e ops).status ≠ .expired) ∧
    (runOps e []).status = .pending ∧
    (runOps e [.markCompleted 0]).status = .completed ∧
    (runOps e [.cancel 0]).status = .cancelled := by
  have hinv := fun ops => runOps_inv ops e (Or.inl h)
  refine ⟨hinv, ?_, ?_, ?_, ?_⟩
  · intro ops hexp
    rcases hinv ops with h1 | h1 | h1 <;> rw [hexp] at h1 <;> exact absurd h1 (by decide)
  · exact h
  · show (runOp e (.markCompleted 0)).status = .completed
    cases hr : e.mark_completed 0 with
    | ok e2 =>
        simp only [runOp, hr]
        rw [(mark_completed_ok 0 e e2 hr).2]
    | error err =>
        exact absurd hr (by unfold Event.mark_completed; rw [if_neg (by simp [h])]; simp)
  · show (runOp e (.cancel 0)).status = .cancelled
    cases hr : e.cancel 0 with
    | ok e2 =>
        simp only [runOp, hr]
        rw [(cancel_ok 0 e e2 hr).2]
    | error err =>
        exact absurd hr (by unfold Event.cancel; rw [if_neg (by simp [h])]; simp)

theorem claim_C9_expired_unreachable_witness :
    ePending.status = .pending ∧
    (runOps ePending [.markCompleted 3, .cancel 4, .markCompleted 5]).status ≠ .expired :=
  ⟨rfl, (claim_C9_expired_unreachable ePending rfl).2.1 _⟩

/-- Claim C10: `update_profile` with a provided full name and a provided
email that contains no `@` raises the invalid-email `ValueError` only
after the full name has been replaced: the returned aggregate carries the
new `full_name` while `email` and `updated_at` are untouched. -/
theorem claim_C10_partial_profile_update (now : Int) (u : User) (fn e : String)
    (h : pyContains e '@' = false) :
    u.update_profile now (some fn) (some e) =
      ({ u with full_name := some fn }, some (.valueError "Invalid email format")) := by
  simp [User.update_profile, h]

theorem claim_C10_partial_profile_update_witness :
    pyContains "not-an-email" '@' = false ∧
    uBob.update_profile 99 (some "Bobby B") (some "not-an-email") =
      ({ uBob with full_name := some "Bobby B" },
        some (.valueError "Invalid email format")) :=
  ⟨by decide, claim_C10_partial_profile_update 99 uBob "Bobby B" "not-an-email" (by decide)⟩

/-- Claim C6, counterexample: `update_event` with a provided but empty
title does not fail — Python truthiness skips the update silently, so no
`ValidationError` is raised and the stored title is unchanged. -/
theorem claim_C6_counterexample :
    (∃ res, update_event { events := [ePending] } 5
        { event_id := 1, title := some "", event_date := none } = .ok res ∧
      res.2.title = ePending.title) ∧
    (∀ err, update_event { events := [ePending] } 5
        { event_id := 1, title := some "", event_date := none } ≠ .error err) := by
  constructor
  · exact ⟨({ events := [ePending] }, ePending), rfl, rfl⟩
  · intro err h
    rw [show update_event { events := [ePending] } 5
        { event_id := 1, title := some "", event_date := none }
      = .ok ({ events := [ePending] }, ePending) from rfl] at h
    exact Except.noConfusion h

/-- Claim C6, amended: on an existing reminder, a provided empty title is
silently skipped (Python truthiness) and the call succeeds with the title
unchanged; a provided non-empty but whitespace-only title fails with the
`ValueError` and leaves the reminder unchanged; a non-blank title
replaces the old one and bumps `updated_at`. -/
theorem claim_C6_update_title (repo : EventRepo) (now : Int) (id : Nat) (t : String)
    (ev : Event) (hfind : find_event_by_id repo id = some ev) :
    (t = "" → update_event repo now { event_id := id, title := some t, event_date := none }
      = .ok (save_event repo ev, ev)) ∧
    (t ≠ "" → pyStrip t = "" →
      update_event repo now { event_id := id, title := some t, event_date := none }
        = .error (.valueError "Title cannot be empty")) ∧
    (pyStrip t ≠ "" →
      update_event repo now { event_id := id, title := some t, event_date := none }
        = .ok (save_event repo { ev with title := t, updated_at := now },
            { ev with title := t, updated_at := now })) := by
  refine ⟨?_, ?_, ?_⟩
  · intro he
    subst he
    simp [update_event, hfind]
  · intro hne hstrip
    simp [update_event, hfind, Event.update_details, hne, hstrip]
  · intro hstrip
    have hne : t ≠ "" := by
      intro he
      exact hstrip (by rw [he]; decide)
    simp [update_event, hfind, Event.update_details, hne, hstrip]

theorem claim_C6_update_title_witness :
    find_event_by_id { events := [ePending] } 1 = some ePending ∧
    update_event { events := [ePending] } 5
        { event_id := 1, title := some "   ", event_date := none }
      = .error (.valueError "Title cannot be empty") ∧
    update_event { events := [ePending] } 5
        { event_id := 1, title := some "Dentist", event_date := none }
      = .ok (save_event { events := [ePending] } { ePending with title := "Dentist", updated_at := 5 },
          { ePending with title := "Dentist", updated_at := 5 }) :=
  ⟨rfl,
   (claim_C6_update_title { events := [ePending] } 5 1 "   " ePending rfl).2.1
     (by decide) (by decide),
   (claim_C6_update_title { events := [ePending] } 5 1 "Dentist" ePending rfl).2.2
     (by decide)⟩

/-- A decoded payload carrying only a subject claim (possibly absent),
as a refresh-style token would. -/
def payloadWith (s : Option String) : JwtPayload :=
  { sub := s, username := none, email := none, ty := none }

/-- Claim C7, counterexample: a validly signed token whose payload
carries no subject claim makes `get_user_id_from_token` raise `KeyError`
(from `payload["sub"]`), not the `InvalidTokenError`-family `ValueError`
that every other failure path raises. -/
theorem claim_C7_counterexample :
    get_user_id_from_token (.ok (payloadWith none)) = .error (.keyError "sub") ∧
    ∀ msg, get_user_id_from_token (.ok (payloadWith none)) ≠ .error (.valueError msg) := by
  refine ⟨rfl, ?_⟩
  intro msg h
  rw [show get_user_id_from_token (.ok (payloadWith none))
    = .error (.keyError "sub") from rfl] at h
  injection h with h
  exact PyErr.noConfusion h

/-- Claim C7, amended: `get_user_id_from_token` verifies first and then
integer-parses the subject's claim: a token `jwt.decode` rejects yields
the `ValueError` re-raised by `verify_token`, a present but non-integer
subject yields the `ValueError` raised by `int`, an integer subject
parses to that id — but a validly signed payload with no subject claim
at all raises `KeyError`, which is outside the `InvalidTokenError`
(`ValueError`) taxonomy. -/
theorem claim_C7_subject_extraction (token : Token) (p : JwtPayload) (s : String) :
    (∀ reason, token = .error reason →
      get_user_id_from_token token = .error (.valueError ("Invalid token: " ++ reason))) ∧
    (token = .ok p → p.sub = none →
      get_user_id_from_token token = .error (.keyError "sub")) ∧
    (token = .ok p → p.sub = some s → pyInt s = none →
      get_user_id_from_token token =
        .error (.valueError ("invalid literal for int() with base 10: " ++ s))) ∧
    (token = .ok p → p.sub = some s → ∀ n, pyInt s = some n →
      get_user_id_from_token token = .ok n) := by
  refine ⟨?_, ?_, ?_, ?_⟩
  · intro reason ht
    subst ht
    rfl
  · intro ht hs
    subst ht
    simp [get_user_id_from_token, verify_token, hs]
  · intro ht hs hp
    subst ht
    simp [get_user_id_from_token, verify_token, hs, hp]
  · intro ht hs n hp
    subst ht
    simp [get_user_id_from_token, verify_token, hs, hp]

theorem claim_C7_subject_extraction_witness :
    get_user_id_from_token (.error "Signature verification failed")
      = .error (.valueError "Invalid token: Signature verification failed") ∧
    get_user_id_from_token (.ok (payloadWith none)) = .error (.keyError "sub") ∧
    get_user_id_from_token (.ok (payloadWith (some "abc")))
      = .error (.valueError "invalid literal for int() with base 10: abc") ∧
    get_user_id_from_token (.ok (payloadWith (some "42"))) = .ok 42 :=
  ⟨(claim_C7_subject_extraction (.error "Signature verification failed")
      (payloadWith none) "").1 _ rfl,
   (claim_C7_subject_extraction (.ok (payloadWith none)) (payloadWith none) "").2.1
      rfl rfl,
   (claim_C7_subject_extraction (.ok (payloadWith (some "abc"))) (payloadWith (some "abc"))
      "abc").2.2.1 rfl rfl (by decide),
   (claim_C7_subject_extraction (.ok (payloadWith (some "42"))) (payloadWith (some "42"))
      "42").2.2.2 rfl rfl 42 (by decide)⟩

/-! ### Sign-up fixtures -/

def emptyRepo : UserRepo := { users := [], next_id := 1 }

/-- A sign-up command that asks for the admin role. -/
def signupAdminCmd : SignUpCommand :=
  { username := "alice", email := "alice@x.com", password := "password123",
    role := "admin_user", full_name := none }

def repoAlice : UserRepo := { users := [uAlice], next_id := 2 }

/-- A sign-up attempt differing from the stored `alice` only by case in
the username (and using a fresh email). -/
def signupAliceDupCmd : SignUpCommand :=
  { username := "Alice", email := "alice2@x.com", password := "password123",
    role := "general_user", full_name := none }

/-- Claim C1, counterexample: the service never passes `command.role` to
the `User` constructor, so signing up with role `admin_user` persists a
user whose role is the column default `general_user`. -/
theorem claim_C1_counterexample :
    ∃ repo2 resp, sign_up emptyRepo 2 0 signupAdminCmd = .ok (repo2, resp) ∧
      signupAdminCmd.role = "admin_user" ∧
      resp.user.role = "general_user" ∧
      resp.user.role ≠ "admin_user" :=
  ⟨_, _, rfl, rfl, rfl, by decide⟩

/-- Claim C1, amended: every successful `sign_up` persists a user with
the lowercased-and-stripped username and email, active flag true, and
role equal to the `general_user` column default — the supplied role
(including `admin_user`) is ignored. -/
theorem claim_C1_signup_normalizes_and_defaults_role (repo : UserRepo) (seed : Nat)
    (now : Int) (cmd : SignUpCommand) (repo2 : UserRepo) (resp : AuthenticationResponse)
    (h : sign_up repo seed now cmd = .ok (repo2, resp)) :
    resp.user.role = generalRole ∧
    resp.user.username = pyStrip (pyLower cmd.username) ∧
    resp.user.email = pyStrip (pyLower cmd.email) ∧
    resp.user.is_active = true ∧
    repo2.users = repo.users ++ [resp.user] := by
  unfold sign_up at h
  split at h
  · exact absurd h (by simp)
  split at h
  · exact absurd h (by simp)
  split at h
  · exact absurd h (by simp)
  split at h
  · exact absurd h (by simp)
  split at h
  · exact absurd h (by simp)
  rename_i hpw
  simp only [] at h
  split at h
  · exact absurd h (by simp)
  rename_i repo2' hsave
  rw [Except.ok.injEq, Prod.mk.injEq] at h
  obtain ⟨h1, h2⟩ := h
  subst h1
  subst h2
  exact ⟨rfl, rfl, rfl, rfl, save_new_user_ok _ _ _ hsave⟩

theorem claim_C1_signup_normalizes_and_defaults_role_witness :
    ∃ repo2 resp, sign_up emptyRepo 2 0 signupAdminCmd = .ok (repo2, resp) ∧
      resp.user.role = generalRole ∧
      resp.user.username = pyStrip (pyLower signupAdminCmd.username) ∧
      resp.user.email = pyStrip (pyLower signupAdminCmd.email) ∧
      resp.user.is_active = true ∧
      repo2.users = emptyRepo.users ++ [resp.user] := by
  refine ⟨_, _, rfl, ?_⟩
  have := claim_C1_signup_normalizes_and_defaults_role emptyRepo 2 0 signupAdminCmd _ _ rfl
  exact this

/-- Claim C3, counterexample: the service-level uniqueness checks compare
the raw command username/email against the stored (already normalized)
values, so an attempt whose username differs from a stored one only by
case passes both checks and no `ConflictError` `ValueError` is raised;
the failure surfaces only at the commit, as the `IntegrityError` from
the UNIQUE constraint — an unclassified error (HTTP 500), not the
claimed `ConflictError`. -/
theorem claim_C3_counterexample :
    pyStrip (pyLower signupAliceDupCmd.username) = uAlice.username ∧
    sign_up repoAlice 2 0 signupAliceDupCmd =
      .error (.integrityError "duplicate key value violates unique constraint") ∧
    ∀ msg, sign_up repoAlice 2 0 signupAliceDupCmd ≠ .error (.valueError msg) := by
  refine ⟨by decide, rfl, ?_⟩
  intro msg h
  rw [show sign_up repoAlice 2 0 signupAliceDupCmd =
    .error (.integrityError "duplicate key value violates unique constraint") from rfl] at h
  injection h with h
  exact PyErr.noConfusion h

/-- Claim C3, amended: the duplicate checks in `sign_up` are exact string
comparisons of the raw command username and email against the stored
values, and an exact match fails with the conflict `ValueError` (nothing
persisted, the error carrying no repository state).  A case- or
whitespace-variant of a stored value passes both service-level checks
and, when the remaining validations pass, fails only at the commit with
the `IntegrityError` of the database UNIQUE constraints — outside the
`ConflictError`/`ValueError` taxonomy — and again no user is persisted. -/
theorem claim_C3_conflict_checks_raw (repo : UserRepo) (seed : Nat) (now : Int)
    (cmd : SignUpCommand) :
    (exists_by_username repo cmd.username = true →
      sign_up repo seed now cmd =
        .error (.valueError ("Username '" ++ cmd.username ++ "' is already taken"))) ∧
    (exists_by_username repo cmd.username = false →
      exists_by_email repo cmd.email = true →
      sign_up repo seed now cmd =
        .error (.valueError ("Email '" ++ cmd.email ++ "' is already registered"))) ∧
    (exists_by_username repo cmd.username = false →
      exists_by_email repo cmd.email = false →
      pyContains cmd.email '@' = true →
      ¬ (pyLen cmd.username < 3 ∨ pyLen cmd.username > 50) →
      8 ≤ pyLen cmd.password →
      repo.users.any (fun u => u.username == pyStrip (pyLower cmd.username)
        || u.email == pyStrip (pyLower cmd.email)) = true →
      sign_up repo seed now cmd =
        .error (.integrityError "duplicate key value violates unique constraint")) := by
  refine ⟨?_, ?_, ?_⟩
  · intro h
    simp [sign_up, h]
  · intro h1 h2
    simp [sign_up, h1, h2]
  · intro h1 h2 h3 h4 h5 h6
    have hpw : User.hash_password seed cmd.password =
        .ok (bcrypt_hashpw cmd.password (bcrypt_gensalt seed)) := by
      unfold User.hash_password
      rw [if_neg (by omega)]
    simp [sign_up, h1, h2, h3, h4, hpw, save_new_user, h6]

theorem claim_C3_conflict_checks_raw_witness :
    sign_up repoAlice 2 0
        { username := "alice", email := "x@y.z", password := "password123",
          role := "general_user", full_name := none } =
      .error (.valueError "Username 'alice' is already taken") ∧
    sign_up repoAlice 2 0
        { username := "newbie", email := "alice@x.com", password := "password123",
          role := "general_user", full_name := none } =
      .error (.valueError "Email 'alice@x.com' is already registered") ∧
    sign_up repoAlice 2 0 signupAliceDupCmd =
      .error (.integrityError "duplicate key value violates unique constraint") :=
  ⟨(claim_C3_conflict_checks_raw repoAlice 2 0
      { username := "alice", email := "x@y.z", password := "password123",
        role := "general_user", full_name := none }).1 (by decide),
   (claim_C3_conflict_checks_raw repoAlice 2 0
      { username := "newbie", email := "alice@x.com", password := "password123",
        role := "general_user", full_name := none }).2.1 (by decide) (by decide),
   (claim_C3_conflict_checks_raw repoAlice 2 0 signupAliceDupCmd).2.2 (by decide)
     (by decide) (by decide) (by decide) (by decide) (by decide)⟩

/-- Claim C5: an unknown username-or-email and a known user with a wrong
password both fail `sign_in` with the very same "Invalid credentials"
error, while correct credentials on a deactivated account fail with
"Account is deactivated", a message distinct from that wording. -/
theorem claim_C5_signin_messages (repo : UserRepo) (c : SignInCommand) :
    (find_by_username_or_email repo (pyStrip (pyLower c.username_or_email)) = none →
      sign_in repo c = .error (.valueError "Invalid credentials")) ∧
    (∀ u, find_by_username_or_email repo (pyStrip (pyLower c.username_or_email)) = some u →
      u.verify_password c.password = false →
      sign_in repo c = .error (.valueError "Invalid credentials")) ∧
    (∀ u, find_by_username_or_email repo (pyStrip (pyLower c.username_or_email)) = some u →
      u.verify_password c.password = true → u.is_active = false →
      sign_in repo c = .error (.valueError "Account is deactivated") ∧
      "Account is deactivated" ≠ "Invalid credentials") := by
  refine ⟨?_, ?_, ?_⟩
  · intro hf
    simp [sign_in, hf]
  · intro u hf hv
    simp [sign_in, hf, hv]
  · intro u hf hv hact
    refine ⟨?_, by decide⟩
    simp [sign_in, hf, hv, User.can_authenticate, hact]

def repoBobCarol : UserRepo := { users := [uBob, uCarol], next_id := 3 }

theorem claim_C5_signin_messages_witness :
    sign_in repoBobCarol { username_or_email := "ghost", password := "whatever" } =
      .error (.valueError "Invalid credentials") ∧
    sign_in repoBobCarol { username_or_email := "bob", password := "wrongpass" } =
      .error (.valueError "Invalid credentials") ∧
    sign_in repoBobCarol { username_or_email := "carol", password := "password456" } =
      .error (.valueError "Account is deactivated") :=
  ⟨(claim_C5_signin_messages repoBobCarol
      { username_or_email := "ghost", password := "whatever" }).1 (by decide),
   (claim_C5_signin_messages repoBobCarol
      { username_or_email := "bob", password := "wrongpass" }).2.1 uBob (by decide) (by decide),
   ((claim_C5_signin_messages repoBobCarol
      { username_or_email := "carol", password := "password456" }).2.2 uCarol
      (by decide) (by decide) rfl).1⟩

end Eventrely
